import Mathlib

/-!
Shallow embedding of the maintenance-forecasting and usage-summary core of
the Garuda360 vehicle-management application (src/app/routes.py and
src/app/models.py): the `predict_next_service` function, the per-rule
forecast loop of `vehicle_detail`, and the two aggregate SQL queries of
`vehicle_detail` (service summary and fuel summary).
-/

namespace Garuda

/-! ## Calendar dates

Python's `datetime.date` is a proleptic-Gregorian calendar date; adding a
`timedelta(days = n)` is addition on its day ordinal.  We model a date by
its (year, month, day) fields and convert to and from the day count via
the standard civil-calendar algorithms, using floor division on `Int`.
-/

structure Date where
  year : Int
  month : Int
  day : Int
deriving DecidableEq, Repr

/-- Day number of a civil date (days relative to 1970-01-01, proleptic
Gregorian), mirroring the ordinal underlying Python `datetime.date`. -/
def daysFromCivil (dt : Date) : Int :=
  let y : Int := if dt.month ≤ 2 then dt.year - 1 else dt.year
  let era : Int := y.fdiv 400
  let yoe : Int := y - era * 400
  let doy : Int :=
    (153 * (if 2 < dt.month then dt.month - 3 else dt.month + 9) + 2).fdiv 5 + dt.day - 1
  let doe : Int := yoe * 365 + yoe.fdiv 4 - yoe.fdiv 100 + doy
  era * 146097 + doe - 719468

/-- Civil date of a day number: the inverse of `daysFromCivil` on valid dates. -/
def civilFromDays (z0 : Int) : Date :=
  let z : Int := z0 + 719468
  let era : Int := z.fdiv 146097
  let doe : Int := z - era * 146097
  let yoe : Int := (doe - doe.fdiv 1460 + doe.fdiv 36524 - doe.fdiv 146096).fdiv 365
  let y : Int := yoe + era * 400
  let doy : Int := doe - (365 * yoe + yoe.fdiv 4 - yoe.fdiv 100)
  let mp : Int := (5 * doy + 2).fdiv 153
  let d : Int := doy - (153 * mp + 2).fdiv 5 + 1
  let m : Int := if mp < 10 then mp + 3 else mp - 9
  ⟨if m ≤ 2 then y + 1 else y, m, d⟩

/-- Date plus a number of days: Python `d + timedelta(days = n)`. -/
def addDays (d : Date) (n : Int) : Date :=
  civilFromDays (daysFromCivil d + n)

/-! ## Database rows

Value snapshots of the SQLAlchemy models consumed by the core
(src/app/models.py).  Columns without `nullable=False` are `Option`;
numeric SQL `Float` columns are modelled as exact rationals. -/

structure Vehicle where
  id : Int
  current_odometer : Int
deriving DecidableEq, Repr

structure ServiceEvent where
  id : Int
  vehicle_id : Int
  service_date : Option Date
  odometer_at_service : Option Int
  service_type : Option String
  total_cost : Option ℚ
deriving DecidableEq, Repr

structure FuelEntry where
  id : Int
  vehicle_id : Int
  odometer : Int
  liters : ℚ
  total_cost : Option ℚ
deriving DecidableEq, Repr

/-! ## predict_next_service (src/app/routes.py lines 49–88) -/

/-- SQL comparison `a < b` on a nullable date column, with NULL below every
value (SQLite ordering, so `ORDER BY service_date DESC ... first()` yields
a row whose date no other row's date exceeds). -/
def dateLtB : Option Date → Option Date → Bool
  | none, none => false
  | none, some _ => true
  | some _, none => false
  | some a, some b => decide (daysFromCivil a < daysFromCivil b)

/-- One step of the maximum-by-date selection: keep the later row, the
incumbent on ties. -/
def pickLater (acc x : ServiceEvent) : ServiceEvent :=
  if dateLtB acc.service_date x.service_date then x else acc

/-- Row returned by `.order_by(ServiceEvent.service_date.desc()).first()`:
a row of maximal service date (first such row in list order, a fixed
deterministic tie-break for the order SQL leaves unspecified). -/
def latestBy : List ServiceEvent → Option ServiceEvent
  | [] => none
  | e :: rest => some (rest.foldl pickLater e)

/-- Python `x or y` on an optional integer: `None` and `0` are falsy. -/
def pyOrInt : Option Int → Int → Int
  | none, d => d
  | some n, d => if n = 0 then d else n

/-- Python `x or y` on an optional date: only `None` is falsy (a `date`
object is always truthy). -/
def pyOrDate : Option Date → Date → Date
  | none, d => d
  | some x, _ => x

/-- Result dictionary of `predict_next_service`. -/
structure Forecast where
  service_type : String
  last_date : Date
  last_odo : Int
  next_date : Date
  next_odo : Int
deriving DecidableEq, Repr

/-- The `predict_next_service(vehicle, service_type, km_interval,
months_interval)` function of src/app/routes.py.  The ServiceEvent table
and the current date (`date.today()`) are explicit parameters. -/
def predict_next_service (vehicle : Vehicle) (table : List ServiceEvent) (today : Date)
    (service_type : String) (km_interval months_interval : Int) : Forecast :=
  let matched := table.filter
    (fun e => decide (e.vehicle_id = vehicle.id ∧ e.service_type = some service_type))
  let anchor : Date × Int :=
    match latestBy matched with
    | some last_event =>
        (pyOrDate last_event.service_date today,
         pyOrInt last_event.odometer_at_service vehicle.current_odometer)
    | none => (today, vehicle.current_odometer)
  { service_type := service_type
    last_date := anchor.1
    last_odo := anchor.2
    next_date := addDays anchor.1 (months_interval * 30)
    next_odo := anchor.2 + km_interval }

/-! ## The forecast batch of vehicle_detail (src/app/routes.py lines 208–224) -/

/-- The fixed rule list of `vehicle_detail`. -/
def rules : List (String × Int × Int) :=
  [("Oil Change", 5000, 6), ("Brake Pads", 30000, 24), ("Wipers", 20000, 18)]

/-- The prediction loop of `vehicle_detail`: one `predict_next_service`
call per rule, results appended in rule order. -/
def forecastBatch (vehicle : Vehicle) (table : List ServiceEvent) (today : Date)
    (rs : List (String × Int × Int)) : List Forecast :=
  rs.map (fun r => predict_next_service vehicle table today r.1 r.2.1 r.2.2)

/-! ## The summary queries of vehicle_detail (src/app/routes.py lines 179–207)

SQL aggregate semantics: `SUM` skips NULL values and is itself NULL when no
non-NULL value remains; `MAX`/`MIN` are NULL on an empty set; `COALESCE(x, 0)`
and the Python `x or 0` guard both turn that NULL into 0. -/

/-- SQL `SUM` over a nullable numeric column. -/
def sqlSum (l : List (Option ℚ)) : Option ℚ :=
  let vs := l.filterMap id
  if vs = [] then none else some vs.sum

/-- SQL `MAX` over an integer column. -/
def sqlMaxInt : List Int → Option Int
  | [] => none
  | x :: xs => some (xs.foldl max x)

/-- SQL `MIN` over an integer column. -/
def sqlMinInt : List Int → Option Int
  | [] => none
  | x :: xs => some (xs.foldl min x)

/-- The summary values `vehicle_detail` passes to the template. -/
structure UsageSummary where
  service_count : Nat
  total_service_expense : ℚ
  total_fuel_cost : ℚ
  total_liters : ℚ
  km_per_liter : Option ℚ
deriving DecidableEq, Repr

/-- The `km_per_liter` column of the fuel-summary query:
`CASE WHEN SUM(liters) > 0 THEN (MAX(odometer) - MIN(odometer)) * 1.0 /
SUM(liters) ELSE NULL END`. -/
def fuelKmPerLiter (fuel : List FuelEntry) : Option ℚ :=
  match sqlSum (fuel.map (fun f => some f.liters)) with
  | some s =>
      if 0 < s then
        match sqlMaxInt (fuel.map (fun f => f.odometer)),
              sqlMinInt (fuel.map (fun f => f.odometer)) with
        | some mx, some mn => some (((mx : ℚ) - (mn : ℚ)) / s)
        | _, _ => none
      else none
  | none => none

/-- The two aggregate queries of `vehicle_detail`, applied to the vehicle's
service_event and fuel_entry rows (the rows the `WHERE vehicle_id = :vid`
clauses select). -/
def summarize (services : List ServiceEvent) (fuel : List FuelEntry) : UsageSummary :=
  { service_count := services.length
    total_service_expense := (sqlSum (services.map (fun e => e.total_cost))).getD 0
    total_fuel_cost := (sqlSum (fuel.map (fun f => f.total_cost))).getD 0
    total_liters := (sqlSum (fuel.map (fun f => some f.liters))).getD 0
    km_per_liter := fuelKmPerLiter fuel }

/-! ## Helper lemmas about the maximum-by-date selection -/

lemma dateLtB_irrefl (x : Option Date) : dateLtB x x = false := by
  cases x <;> simp [dateLtB]

lemma dateLtB_trans {x y z : Option Date} (h1 : dateLtB x y = true)
    (h2 : dateLtB y z = true) : dateLtB x z = true := by
  cases x <;> cases y <;> cases z <;> simp_all [dateLtB]
  omega

lemma dateLtB_not_trans {x y z : Option Date} (h1 : dateLtB x y = false)
    (h2 : dateLtB y z = false) : dateLtB x z = false := by
  cases x <;> cases y <;> cases z <;> simp_all [dateLtB]
  omega

lemma foldl_pickLater_spec (l : List ServiceEvent) : ∀ a : ServiceEvent,
    (l.foldl pickLater a = a ∨ l.foldl pickLater a ∈ l) ∧
    (∀ e, (e = a ∨ e ∈ l) →
      dateLtB (l.foldl pickLater a).service_date e.service_date = false) := by
  induction l with
  | nil =>
    intro a
    refine ⟨Or.inl rfl, ?_⟩
    rintro e (rfl | he)
    · exact dateLtB_irrefl _
    · simp at he
  | cons x rest ih =>
    intro a
    rw [List.foldl_cons]
    obtain ⟨ihmem, ihmax⟩ := ih (pickLater a x)
    have hpick : pickLater a x = x ∨ pickLater a x = a := by
      unfold pickLater
      by_cases hc : dateLtB a.service_date x.service_date <;> simp [hc]
    constructor
    · rcases ihmem with h | h
      · rcases hpick with h2 | h2
        · exact Or.inr (by rw [h, h2]; exact List.mem_cons_self x rest)
        · exact Or.inl (by rw [h, h2])
      · exact Or.inr (List.mem_cons_of_mem x h)
    · rintro e (rfl | he)
      · by_cases hc : dateLtB e.service_date x.service_date
        · have hsx : pickLater e x = x := by unfold pickLater; rw [if_pos hc]
          have hrx : dateLtB (rest.foldl pickLater (pickLater e x)).service_date
              x.service_date = false := ihmax x (Or.inl hsx.symm)
          cases hR : dateLtB (rest.foldl pickLater (pickLater e x)).service_date
              e.service_date
          · rfl
          · have := dateLtB_trans hR hc
            rw [hrx] at this
            exact this.symm
        · have hsa : pickLater e x = e := by
            unfold pickLater
            rw [if_neg hc]
          exact ihmax e (Or.inl hsa.symm)
      · rcases List.mem_cons.1 he with rfl | he2
        · by_cases hc : dateLtB a.service_date e.service_date
          · have hsx : pickLater a e = e := by unfold pickLater; rw [if_pos hc]
            exact ihmax e (Or.inl hsx.symm)
          · have hsa : pickLater a e = a := by unfold pickLater; rw [if_neg hc]
            have hra : dateLtB (rest.foldl pickLater (pickLater a e)).service_date
                a.service_date = false := ihmax a (Or.inl hsa.symm)
            exact dateLtB_not_trans hra (by simpa using hc)
        · exact ihmax e (Or.inr he2)

lemma latestBy_spec {l : List ServiceEvent} {m : ServiceEvent}
    (h : latestBy l = some m) :
    m ∈ l ∧ ∀ e ∈ l, dateLtB m.service_date e.service_date = false := by
  cases l with
  | nil => simp [latestBy] at h
  | cons a rest =>
    have hm : m = rest.foldl pickLater a := by
      simpa [latestBy] using h.symm
    obtain ⟨hmem, hmax⟩ := foldl_pickLater_spec rest a
    subst hm
    constructor
    · rcases hmem with h2 | h2
      · rw [h2]; exact List.mem_cons_self a rest
      · exact List.mem_cons_of_mem a h2
    · intro e he
      rcases List.mem_cons.1 he with rfl | he2
      · exact hmax e (Or.inl rfl)
      · exact hmax e (Or.inr he2)

lemma latestBy_of_ne_nil {l : List ServiceEvent} (h : l ≠ []) :
    ∃ m, latestBy l = some m := by
  cases l with
  | nil => exact absurd rfl h
  | cons a rest => exact ⟨rest.foldl pickLater a, rfl⟩

/-- Anchor selection of `predict_next_service` when a matching row exists:
the anchor is a matching row of maximal service date, and the returned
fields apply the Python `or` fallbacks to that row. -/
lemma anchor_spec (vehicle : Vehicle) (table : List ServiceEvent) (today : Date)
    (st : String) (km mi : Int)
    (h : ∃ e ∈ table, e.vehicle_id = vehicle.id ∧ e.service_type = some st) :
    ∃ m ∈ table.filter
        (fun e => decide (e.vehicle_id = vehicle.id ∧ e.service_type = some st)),
      (∀ e ∈ table.filter
          (fun e => decide (e.vehicle_id = vehicle.id ∧ e.service_type = some st)),
        dateLtB m.service_date e.service_date = false) ∧
      (predict_next_service vehicle table today st km mi).last_date =
        pyOrDate m.service_date today ∧
      (predict_next_service vehicle table today st km mi).last_odo =
        pyOrInt m.odometer_at_service vehicle.current_odometer := by
  have hne : table.filter
      (fun e => decide (e.vehicle_id = vehicle.id ∧ e.service_type = some st)) ≠ [] := by
    obtain ⟨e, he, h1, h2⟩ := h
    intro hnil
    have hmem : e ∈ table.filter
        (fun e => decide (e.vehicle_id = vehicle.id ∧ e.service_type = some st)) :=
      List.mem_filter.2 ⟨he, by simp [h1, h2]⟩
    rw [hnil] at hmem
    exact absurd hmem (List.not_mem_nil e)
  obtain ⟨m, hm⟩ := latestBy_of_ne_nil hne
  obtain ⟨hmem, hmax⟩ := latestBy_spec hm
  refine ⟨m, hmem, hmax, ?_, ?_⟩ <;>
    simp only [predict_next_service, hm]

/-! ## Concrete sample data for witnesses and counterexamples -/

def v0 : Vehicle := ⟨1, 45000⟩

def d0 : Date := ⟨2024, 1, 1⟩

def evOilZero : ServiceEvent := ⟨1, 1, some ⟨2023, 12, 1⟩, some 0, some "Oil Change", none⟩

def evOil : ServiceEvent := ⟨2, 1, some ⟨2023, 11, 5⟩, some 40000, some "Oil Change", none⟩

def evBrake : ServiceEvent := ⟨3, 1, some ⟨2023, 10, 1⟩, some 39000, some "Brake Pads", none⟩

def fe1 : FuelEntry := ⟨1, 1, 1000, 10, none⟩

def fe2 : FuelEntry := ⟨2, 1, 1400, 10, none⟩

/-! ## Claims -/

/-- C1: for every vehicle and rule such that no service record in the
history has a service-type label equal to the rule's item type,
`predict_next_service` anchors at the current date and the vehicle's
current odometer, and offsets them by 30·monthsInterval days and by
distanceInterval. -/
theorem claim_C1_no_history (vehicle : Vehicle) (table : List ServiceEvent)
    (today : Date) (st : String) (km mi : Int)
    (h : ∀ e ∈ table, e.service_type ≠ some st) :
    predict_next_service vehicle table today st km mi =
      { service_type := st, last_date := today, last_odo := vehicle.current_odometer,
        next_date := addDays today (mi * 30),
        next_odo := vehicle.current_odometer + km } := by
  have hfil : table.filter
      (fun e => decide (e.vehicle_id = vehicle.id ∧ e.service_type = some st)) = [] := by
    apply List.filter_eq_nil_iff.2
    intro a ha
    simp only [decide_eq_true_eq, not_and]
    intro _
    exact h a ha
  simp only [predict_next_service, hfil]
  rfl

theorem claim_C1_witness :
    (∀ e ∈ [evBrake], e.service_type ≠ some "Oil Change") ∧
    predict_next_service v0 [evBrake] d0 "Oil Change" 5000 6 =
      { service_type := "Oil Change", last_date := d0, last_odo := v0.current_odometer,
        next_date := addDays d0 (6 * 30), next_odo := v0.current_odometer + 5000 } :=
  ⟨by decide, claim_C1_no_history v0 [evBrake] d0 "Oil Change" 5000 6 (by decide)⟩

/-- C2 counterexample: the claim says the anchor odometer equals the
anchor record's recorded odometer-at-service whatever that value is,
including 0; but for a lone matching record whose recorded odometer is 0,
the Python `or` fallback makes `predict_next_service` return the
vehicle's current odometer (45000) instead of 0. -/
theorem claim_C2_counterexample :
    evOilZero.odometer_at_service = some 0 ∧
    (predict_next_service v0 [evOilZero] d0 "Oil Change" 5000 6).last_odo = 45000 ∧
    (predict_next_service v0 [evOilZero] d0 "Oil Change" 5000 6).last_odo ≠ 0 := by
  decide

/-- C2 (amended): with at least one matching record, the anchor is a
matching record of maximal service date, anchor date is its service date
(falling back to the current date when missing), and the anchor odometer
is its recorded odometer-at-service when that is non-null and nonzero,
and the vehicle's current odometer otherwise. -/
theorem claim_C2_latest_anchor (vehicle : Vehicle) (table : List ServiceEvent)
    (today : Date) (st : String) (km mi : Int)
    (h : ∃ e ∈ table, e.vehicle_id = vehicle.id ∧ e.service_type = some st) :
    ∃ m ∈ table.filter
        (fun e => decide (e.vehicle_id = vehicle.id ∧ e.service_type = some st)),
      (∀ e ∈ table.filter
          (fun e => decide (e.vehicle_id = vehicle.id ∧ e.service_type = some st)),
        dateLtB m.service_date e.service_date = false) ∧
      (predict_next_service vehicle table today st km mi).last_date =
        pyOrDate m.service_date today ∧
      (predict_next_service vehicle table today st km mi).last_odo =
        pyOrInt m.odometer_at_service vehicle.current_odometer :=
  anchor_spec vehicle table today st km mi h

theorem claim_C2_witness :
    ∃ m ∈ [evOilZero, evBrake].filter
        (fun e => decide (e.vehicle_id = v0.id ∧ e.service_type = some "Oil Change")),
      (∀ e ∈ [evOilZero, evBrake].filter
          (fun e => decide (e.vehicle_id = v0.id ∧ e.service_type = some "Oil Change")),
        dateLtB m.service_date e.service_date = false) ∧
      (predict_next_service v0 [evOilZero, evBrake] d0 "Oil Change" 5000 6).last_date =
        pyOrDate m.service_date d0 ∧
      (predict_next_service v0 [evOilZero, evBrake] d0 "Oil Change" 5000 6).last_odo =
        pyOrInt m.odometer_at_service v0.current_odometer :=
  claim_C2_latest_anchor v0 [evOilZero, evBrake] d0 "Oil Change" 5000 6 (by decide)

/-- C3: `predict_next_service` considers only records whose service-type
label equals the rule's item type: inserting (equivalently, removing) a
record of any other service type anywhere in the history leaves the
result unchanged, and when a match exists the anchor is a
maximum-by-service-date record among the matches. -/
theorem claim_C3_matches_only (vehicle : Vehicle) (table : List ServiceEvent)
    (today : Date) (st : String) (km mi : Int) (other : ServiceEvent)
    (pre post : List ServiceEvent) :
    (other.service_type ≠ some st →
      predict_next_service vehicle (pre ++ other :: post) today st km mi =
        predict_next_service vehicle (pre ++ post) today st km mi) ∧
    ((∃ e ∈ table, e.vehicle_id = vehicle.id ∧ e.service_type = some st) →
      ∃ m ∈ table.filter
          (fun e => decide (e.vehicle_id = vehicle.id ∧ e.service_type = some st)),
        (∀ e ∈ table.filter
            (fun e => decide (e.vehicle_id = vehicle.id ∧ e.service_type = some st)),
          dateLtB m.service_date e.service_date = false) ∧
        (predict_next_service vehicle table today st km mi).last_date =
          pyOrDate m.service_date today ∧
        (predict_next_service vehicle table today st km mi).last_odo =
          pyOrInt m.odometer_at_service vehicle.current_odometer) := by
  constructor
  · intro hne
    have hfil : (pre ++ other :: post).filter
        (fun e => decide (e.vehicle_id = vehicle.id ∧ e.service_type = some st)) =
        (pre ++ post).filter
        (fun e => decide (e.vehicle_id = vehicle.id ∧ e.service_type = some st)) := by
      simp [List.filter_append, List.filter_cons, hne]
    simp only [predict_next_service, hfil]
  · exact anchor_spec vehicle table today st km mi

theorem claim_C3_witness :
    predict_next_service v0 ([evOil] ++ evBrake :: []) d0 "Oil Change" 5000 6 =
      predict_next_service v0 ([evOil] ++ []) d0 "Oil Change" 5000 6 :=
  (claim_C3_matches_only v0 [] d0 "Oil Change" 5000 6 evBrake [evOil] []).1 (by decide)

/-- C4 counterexample: the claim's example is off by one day — 2024 is a
leap year, so 2024-01-01 plus 6·30 = 180 days is 2024-06-29, not
2024-06-30. -/
theorem claim_C4_counterexample :
    (predict_next_service v0 [] ⟨2024, 1, 1⟩ "Oil Change" 5000 6).next_date =
      ⟨2024, 6, 29⟩ ∧
    (predict_next_service v0 [] ⟨2024, 1, 1⟩ "Oil Change" 5000 6).next_date ≠
      ⟨2024, 6, 30⟩ := by
  decide

/-- C4 (amended): for every anchor date and months interval, the next
date is the anchor date plus exactly 30·monthsInterval calendar days (not
calendar-month addition); in particular, for anchor date 2024-01-01 and
monthsInterval 6 the next date is 2024-06-29. -/
theorem claim_C4_thirty_day_months :
    (∀ (vehicle : Vehicle) (table : List ServiceEvent) (today : Date)
        (st : String) (km mi : Int),
      (predict_next_service vehicle table today st km mi).next_date =
        addDays (predict_next_service vehicle table today st km mi).last_date (30 * mi)) ∧
    (predict_next_service v0 [] ⟨2024, 1, 1⟩ "Oil Change" 5000 6).next_date =
      ⟨2024, 6, 29⟩ := by
  constructor
  · intro vehicle table today st km mi
    simp only [predict_next_service]
    rw [Int.mul_comm]
  · decide

/-- C6: the summary of an empty service history and an empty fuel history
is service count 0, total service cost 0, total fuel cost 0, total fuel
volume 0, and an undefined (None) fuel efficiency. -/
theorem claim_C6_empty_summary :
    summarize ([] : List ServiceEvent) ([] : List FuelEntry) =
      { service_count := 0, total_service_expense := 0, total_fuel_cost := 0,
        total_liters := 0, km_per_liter := none } := by
  decide

/-- C7: the forecast batch yields exactly one result per rule, in rule
order, each result a function of its own rule alone; and the reference
rule set is Oil Change (5000, 6), Brake Pads (30000, 24),
Wipers (20000, 18). -/
theorem claim_C7_batch_order (vehicle : Vehicle) (table : List ServiceEvent)
    (today : Date) (rs : List (String × Int × Int)) :
    (forecastBatch vehicle table today rs).length = rs.length ∧
    (∀ i : Nat, (forecastBatch vehicle table today rs)[i]? =
      (rs[i]?).map (fun r => predict_next_service vehicle table today r.1 r.2.1 r.2.2)) ∧
    rules = [("Oil Change", 5000, 6), ("Brake Pads", 30000, 24), ("Wipers", 20000, 18)] := by
  refine ⟨?_, ?_, rfl⟩
  · simp [forecastBatch]
  · intro i
    simp [forecastBatch, List.getElem?_map]

/-- C8 counterexample: the claim says a rule with a negative interval does
not produce an ordinary ForecastResult, but `predict_next_service` has no
validation at all — with distance interval −5000 it silently returns an
ordinary projection (next odometer below the anchor). -/
theorem claim_C8_counterexample :
    predict_next_service v0 [] ⟨2024, 1, 1⟩ "Oil Change" (-5000) 6 =
      { service_type := "Oil Change", last_date := ⟨2024, 1, 1⟩, last_odo := 45000,
        next_date := ⟨2024, 6, 29⟩, next_odo := 40000 } := by
  decide

/-- C8 (amended): `predict_next_service` performs no input validation:
for a rule with a negative distance interval it still returns an ordinary
ForecastResult computed by the same formulas, so the projected odometer
lies below the anchor odometer and no error is surfaced. -/
theorem claim_C8_no_validation (vehicle : Vehicle) (table : List ServiceEvent)
    (today : Date) (st : String) (km mi : Int) (hkm : km < 0) :
    (predict_next_service vehicle table today st km mi).service_type = st ∧
    (predict_next_service vehicle table today st km mi).next_odo =
      (predict_next_service vehicle table today st km mi).last_odo + km ∧
    (predict_next_service vehicle table today st km mi).next_odo <
      (predict_next_service vehicle table today st km mi).last_odo := by
  refine ⟨rfl, rfl, ?_⟩
  simp only [predict_next_service]
  omega

theorem claim_C8_witness :
    (predict_next_service v0 [] ⟨2024, 1, 1⟩ "Oil Change" (-5000) 6).next_odo <
      (predict_next_service v0 [] ⟨2024, 1, 1⟩ "Oil Change" (-5000) 6).last_odo :=
  (claim_C8_no_validation v0 [] ⟨2024, 1, 1⟩ "Oil Change" (-5000) 6 (by decide)).2.2

/-- C9: both components are deterministic — identical inputs (the injected
current date included) give identical outputs. -/
theorem claim_C9_deterministic (v1 v2 : Vehicle) (t1 t2 : List ServiceEvent)
    (day1 day2 : Date) (st1 st2 : String) (km1 km2 mi1 mi2 : Int)
    (s1 s2 : List ServiceEvent) (f1 f2 : List FuelEntry)
    (hv : v1 = v2) (ht : t1 = t2) (hd : day1 = day2) (hst : st1 = st2)
    (hkm : km1 = km2) (hmi : mi1 = mi2) (hs : s1 = s2) (hf : f1 = f2) :
    predict_next_service v1 t1 day1 st1 km1 mi1 =
      predict_next_service v2 t2 day2 st2 km2 mi2 ∧
    summarize s1 f1 = summarize s2 f2 := by
  subst hv ht hd hst hkm hmi hs hf
  exact ⟨rfl, rfl⟩

theorem claim_C9_witness :
    predict_next_service v0 [evOil] d0 "Oil Change" 5000 6 =
      predict_next_service v0 [evOil] d0 "Oil Change" 5000 6 ∧
    summarize [evOil] [fe1] = summarize [evOil] [fe1] :=
  claim_C9_deterministic v0 v0 [evOil] [evOil] d0 d0 "Oil Change" "Oil Change"
    5000 5000 6 6 [evOil] [evOil] [fe1] [fe1] rfl rfl rfl rfl rfl rfl rfl rfl

/-- C10: when the anchor record's odometer-at-service is 0 or missing,
`predict_next_service` substitutes the vehicle's current odometer, so the
next odometer is the current odometer plus the distance interval; and
when the anchor record's service date is missing it is replaced by the
current date. -/
theorem claim_C10_falsy_fallbacks (vehicle : Vehicle) (table : List ServiceEvent)
    (today : Date) (st : String) (km mi : Int) (m : ServiceEvent)
    (hm : latestBy (table.filter
        (fun e => decide (e.vehicle_id = vehicle.id ∧ e.service_type = some st))) =
      some m) :
    ((m.odometer_at_service = some 0 ∨ m.odometer_at_service = none) →
      (predict_next_service vehicle table today st km mi).last_odo =
        vehicle.current_odometer ∧
      (predict_next_service vehicle table today st km mi).next_odo =
        vehicle.current_odometer + km) ∧
    (m.service_date = none →
      (predict_next_service vehicle table today st km mi).last_date = today) := by
  constructor
  · rintro (h | h) <;>
      (simp only [predict_next_service]; rw [hm]; simp [pyOrInt, h])
  · intro h
    simp only [predict_next_service]
    rw [hm]
    simp [pyOrDate, h]

theorem claim_C10_witness :
    (predict_next_service v0 [evOilZero] d0 "Oil Change" 5000 6).last_odo = 45000 ∧
    (predict_next_service v0 [evOilZero] d0 "Oil Change" 5000 6).next_odo = 50000 := by
  have h := (claim_C10_falsy_fallbacks v0 [evOilZero] d0 "Oil Change" 5000 6 evOilZero
    (by decide)).1 (Or.inl (by decide))
  exact ⟨h.1.trans (by decide), h.2.trans (by decide)⟩

lemma sqlSum_map_some (l : List ℚ) :
    sqlSum (l.map some) = if l = [] then none else some l.sum := by
  simp [sqlSum]

lemma liters_map_some (f : List FuelEntry) :
    f.map (fun x => some x.liters) = (f.map (fun x => x.liters)).map some := by
  simp [List.map_map]

lemma sqlSum_liters_cons (a : FuelEntry) (l : List FuelEntry) :
    sqlSum ((a :: l).map (fun x => some x.liters)) =
      some (((a :: l).map (fun x => x.liters)).sum) := by
  rw [liters_map_some, sqlSum_map_some]
  simp

lemma total_liters_cons (s : List ServiceEvent) (a : FuelEntry) (l : List FuelEntry) :
    (summarize s (a :: l)).total_liters = ((a :: l).map (fun x => x.liters)).sum := by
  simp only [summarize]
  rw [sqlSum_liters_cons]
  rfl

lemma fuelKmPerLiter_cons (a : FuelEntry) (l : List FuelEntry) :
    fuelKmPerLiter (a :: l) =
      if 0 < ((a :: l).map (fun x => x.liters)).sum then
        some (((((l.map (fun x => x.odometer)).foldl max a.odometer : ℤ) : ℚ) -
               (((l.map (fun x => x.odometer)).foldl min a.odometer : ℤ) : ℚ)) /
              ((a :: l).map (fun x => x.liters)).sum)
      else none := by
  unfold fuelKmPerLiter
  rw [sqlSum_liters_cons]
  rfl

/-- C5: when the total fuel volume is positive, the fuel efficiency is
(max odometer − min odometer) divided by the total volume; otherwise it is
the explicit no-data value None (never zero); and a single fuel record of
positive volume yields efficiency 0, distinct from the empty-history
None. -/
theorem claim_C5_fuel_efficiency (s : List ServiceEvent) (f : List FuelEntry)
    (e : FuelEntry) :
    (0 < (summarize s f).total_liters →
      ∃ mx mn, sqlMaxInt (f.map (fun x => x.odometer)) = some mx ∧
        sqlMinInt (f.map (fun x => x.odometer)) = some mn ∧
        (summarize s f).km_per_liter =
          some (((mx : ℚ) - (mn : ℚ)) / (summarize s f).total_liters)) ∧
    (¬ 0 < (summarize s f).total_liters → (summarize s f).km_per_liter = none) ∧
    (0 < e.liters → (summarize s [e]).km_per_liter = some 0) := by
  refine ⟨?_, ?_, ?_⟩
  · intro hpos
    cases f with
    | nil => simp [summarize, sqlSum] at hpos
    | cons a l =>
      rw [total_liters_cons] at hpos
      refine ⟨(l.map (fun x => x.odometer)).foldl max a.odometer,
        (l.map (fun x => x.odometer)).foldl min a.odometer, ?_, ?_, ?_⟩
      · simp [sqlMaxInt]
      · simp [sqlMinInt]
      · have hk : (summarize s (a :: l)).km_per_liter = fuelKmPerLiter (a :: l) := rfl
        rw [hk, fuelKmPerLiter_cons, if_pos hpos, total_liters_cons]
  · intro hneg
    cases f with
    | nil => simp [summarize, fuelKmPerLiter, sqlSum]
    | cons a l =>
      rw [total_liters_cons] at hneg
      have hk : (summarize s (a :: l)).km_per_liter = fuelKmPerLiter (a :: l) := rfl
      rw [hk, fuelKmPerLiter_cons, if_neg hneg]
  · intro hl
    simp [summarize, fuelKmPerLiter, sqlSum, sqlMaxInt, sqlMinInt, hl]

theorem claim_C5_witness :
    (summarize ([] : List ServiceEvent) ([] : List FuelEntry)).km_per_liter = none ∧
    (summarize ([] : List ServiceEvent) [fe1]).km_per_liter = some 0 :=
  ⟨(claim_C5_fuel_efficiency [] [] fe1).2.1 (by decide),
   (claim_C5_fuel_efficiency [] [fe1] fe1).2.2 (by decide)⟩

end Garuda
